import Mathlib

/-!
# Verification of the sales-forecasting pipeline (`src/main.py`)

Shallow embedding of the pipeline in `main.py`: data normalization
(`load_sales_data`), season filtering (`filter_by_season`), per-product
monthly aggregation and forecasting (`forecast_sales`), and the forecast
time axis computed in `plot_forecasts`.

Conventions of the embedding:
- A calendar month is an absolute month index `m : Nat`; its calendar year is
  `m / 12` and its month-of-year is `m % 12` (so month `1900 * 12` is
  January 1900).  `pandas` timestamps produced by the source always sit at a
  month boundary after `resample("M")`, so the day component carries no
  information for the verified claims.
- A missing value (`NaN` / `NaT` in pandas) is `none`.  Quantities are
  modelled as exact integers: the verified claims use only the order and
  additive structure of quantities (clamping, summing), on which `float64`
  arithmetic over integral sales data is exact.
- `pandas` reductions (`min`, `sum`) skip missing values; the embedded
  reductions do the same via `filterMap` / `Option.getD 0`.
-/

/-- The twelve month abbreviations, as produced by `strftime("%b")` and
consumed by `SEASON_MONTHS` in the source. -/
def monthAbbrevs : List String :=
  ["Jan", "Feb", "Mar", "Apr", "May", "Jun",
   "Jul", "Aug", "Sep", "Oct", "Nov", "Dec"]

/-- `strftime("%b")` of an absolute month index. -/
def monthAbbrev (m : Nat) : String :=
  monthAbbrevs.getD (m % 12) ""

/-- The `SEASON_MONTHS` dict of `main.py`; `none` models a `KeyError` on an
unknown season name (the dict lookup `SEASON_MONTHS[season]` is unguarded). -/
def SEASON_MONTHS (season : String) : Option (List String) :=
  if season = "Winter" then some ["Dec", "Jan", "Feb"]
  else if season = "Spring" then some ["Mar", "Apr", "May"]
  else if season = "Summer" then some ["Jun", "Jul", "Aug"]
  else if season = "Autumn" then some ["Sep", "Oct", "Nov"]
  else none

/-- A raw input row, as read from the spreadsheet before normalization. -/
structure RawRow where
  PRODUCT_CODE : String
  PRODUCT_DESCRIPTION : String
  MONTH : String
  QUANTITY : Option Int
deriving Repr, DecidableEq, Inhabited

/-- A normalized row of the sales table after `load_sales_data`:
integer product code, cleaned description, parsed month (`none` = `NaT`),
derived year (`none` when the month is `NaT`), clamped quantity
(`none` = `NaN`). -/
structure Row where
  PRODUCT_CODE : Int
  PRODUCT_DESCRIPTION : String
  MONTH : Option Nat
  YEAR : Option Nat
  QUANTITY : Option Int
deriving Repr, DecidableEq, Inhabited

/-- `str.replace(r"[^a-zA-Z0-9\s]", " ", regex=True).str.lower()`:
every character outside the ASCII alphanumeric and whitespace classes
becomes a space, then the string is lowercased. -/
def fixDescription (s : String) : String :=
  ((s.toList.map fun c =>
      if c.isAlphanum || c.isWhitespace then c else ' ').map Char.toLower).asString

/-- `str.replace("-", "").astype(int)`: strip hyphens and parse the
remaining digit string as an integer; `none` models the `ValueError`
raised by `astype` on a non-numeric remainder. -/
def fixProductCode (s : String) : Option Int :=
  let cs := s.toList.filter fun c => c ≠ '-'
  if cs ≠ [] ∧ cs.all Char.isDigit then
    some (Int.ofNat (cs.foldl (fun n c => n * 10 + (c.toNat - 48)) 0))
  else none

/-- The month abbreviations lowercased, for case-insensitive matching. -/
def monthAbbrevsLower : List String :=
  monthAbbrevs.map fun a => (a.toList.map Char.toLower).asString

/-- Case-insensitive lookup of a three-letter month abbreviation
(`strptime` with `%b` matches month names case-insensitively): the index
of the abbreviation among the twelve months, if any. -/
def monthIndex? (s : String) : Option Nat :=
  (List.range 12).find? fun i => monthAbbrevsLower.getD i "" == s

/-- `pd.to_datetime(sales["MONTH"].str[:3] + "-01", format="%b-%d",
errors="coerce")`: the first three characters are parsed as a month
abbreviation; `%b-%d` carries no year, so `strptime` pins the year to 1900.
Unparsable entries become `NaT` (`none`), not an error. -/
def parseMonth (s : String) : Option Nat :=
  (monthIndex? ((s.toList.take 3).map Char.toLower).asString).map
    fun i => 1900 * 12 + i

/-- `np.where(q < 0, 0, q)` on an optional quantity: a `NaN` compares as
not-less-than zero, so it is kept as `NaN`; a negative value becomes `0`;
a non-negative value is unchanged. -/
def clampQuantity (q : Option Int) : Option Int :=
  match q with
  | none => none
  | some x => if x < 0 then some 0 else some x

/-- `pandas` `Series.min()`: minimum over the present values, `none`
(`NaN`) when no value is present. -/
def pandasMin? (l : List Nat) : Option Nat :=
  l.foldr (fun a acc =>
    match acc with
    | none => some a
    | some b => some (min a b)) none

/-- `pandas` `Series.max()`: maximum over the present values, `none`
(`NaN`) when no value is present. -/
def pandasMax? (l : List Nat) : Option Nat :=
  l.foldr (fun a acc =>
    match acc with
    | none => some a
    | some b => some (max a b)) none

/-- Per-row part of `load_sales_data`: clean the description, parse the
product code (failing the whole load on a malformed code, as `astype(int)`
does), parse the month, derive `YEAR` from the parsed month, clamp the
quantity. -/
def normalizeRow (r : RawRow) : Option Row :=
  (fixProductCode r.PRODUCT_CODE).map fun code =>
    { PRODUCT_CODE := code
      PRODUCT_DESCRIPTION := fixDescription r.PRODUCT_DESCRIPTION
      MONTH := parseMonth r.MONTH
      YEAR := (parseMonth r.MONTH).map fun v => v / 12
      QUANTITY := clampQuantity r.QUANTITY }

/-- Normalize every row of the table; the whole load fails on the first
malformed product code, as `astype(int)` raises for the whole column. -/
def normalizeTable : List RawRow → Option (List Row)
  | [] => some []
  | r :: rest =>
      (normalizeRow r).bind fun row =>
        (normalizeTable rest).map fun rows => row :: rows

/-- The year-correction step of `load_sales_data`:
`if sales["YEAR"].min() < 1900: sales["YEAR"] = pd.to_datetime(sales["MONTH"]).dt.year`.
Note that at this point `sales["MONTH"]` already holds the *parsed*
datetimes (the raw text was overwritten), so the branch recomputes the year
from the parsed month, exactly as the derivation step did. -/
def fixYears (rows : List Row) : List Row :=
  match pandasMin? ((rows.map Row.YEAR).filterMap id) with
  | some y =>
      if y < 1900 then
        rows.map fun r => { r with YEAR := r.MONTH.map fun v => v / 12 }
      else rows
  | none => rows

/-- `load_sales_data` without the spreadsheet I/O: normalize each row, then
apply the table-level year correction.  `none` models the exception raised
by `astype(int)` on a malformed product code. -/
def load_sales_data (sales : List RawRow) : Option (List Row) :=
  (normalizeTable sales).map fixYears

/-- `filter_by_season` of `main.py`: `"All"` returns the table unchanged;
otherwise keep the rows whose month abbreviation is in the season's list
(a `NaT` month never matches, as `strftime` of `NaT` is `NaN`).  `none`
models the `KeyError` of the unguarded dict lookup on an unknown season. -/
def filter_by_season (df : List Row) (season : String) : Option (List Row) :=
  if season = "All" then some df
  else
    (SEASON_MONTHS season).map fun months =>
      df.filter fun r =>
        match r.MONTH with
        | some m => months.contains (monthAbbrev m)
        | none => false

/-- `product_df.set_index("MONTH").resample("M").sum()`, restricted to the
`QUANTITY` column: rows whose month is `NaT` are dropped by the resampler;
the result is one `(month, summed quantity)` bucket per calendar month on
the complete grid from the earliest to the latest observed month, empty
buckets summing to `0` (and `NaN` quantities contributing `0`, as
`pandas` `sum` skips them). -/
def resampleMonthly (rows : List Row) : List (Nat × Int) :=
  let ms := rows.filterMap Row.MONTH
  match pandasMin? ms, pandasMax? ms with
  | some lo, some hi =>
      (List.range (hi + 1 - lo)).map fun i =>
        (lo + i,
         ((rows.filter fun r => r.MONTH == some (lo + i)).map fun r =>
            r.QUANTITY.getD 0).sum)
  | _, _ => []

/-- Which exponential-smoothing model `forecast_sales` builds:
`trend="add"` alone, or `trend="add", seasonal="add"` with the given
`seasonal_periods`. -/
inductive ModelKind where
  | trendAdd
  | trendSeasonalAdd (seasonalPeriods : Nat)
deriving Repr, DecidableEq

/-- Errors of the fitting step, named as in the specification's taxonomy. -/
inductive FitError where
  | insufficientData
  | modelFitFailure
deriving Repr, DecidableEq

/-- A fitted Holt-Winters model: kind, final level and trend, and the
seasonal components (empty for the trend-only model). -/
structure HoltWintersModel where
  kind : ModelKind
  level : Int
  slope : Int
  seasonals : List Int
deriving Repr, DecidableEq

/-- Modelled from the spec: `statsmodels.tsa.holtwinters.ExponentialSmoothing(...).fit()`
is an external library call, not part of this repository.  Per spec §4.4 the
fit fails with `InsufficientDataError` when the series has fewer than 2
observations (no trend can be estimated); otherwise it produces a fitted
model.  The numerical optimizer is abstracted: level and trend are
initialized from the data — no verified claim depends on the fitted values,
only on the model kind, the failure condition and the forecast shape. -/
def fitExponentialSmoothing (kind : ModelKind) (series : List Int) :
    Except FitError HoltWintersModel :=
  if series.length < 2 then .error .insufficientData
  else
    .ok { kind := kind
          level := series.getLast?.getD 0
          slope := series.getLast?.getD 0 - series.getD (series.length - 2) 0
          seasonals :=
            match kind with
            | .trendAdd => []
            | .trendSeasonalAdd p => (List.range p).map fun i => series.getD i 0 }

/-- Modelled from the spec: `model.forecast(n)` of the fitted model produces
exactly `n` values by the recursive forecast formula — level plus trend
extrapolation, plus the seasonal component repeating with the seasonal
period for the seasonal model (spec §4.4). -/
def HoltWintersModel.forecastOut (m : HoltWintersModel) (histLen n : Nat) :
    List Int :=
  (List.range n).map fun (i : Nat) =>
    m.level + m.slope * ((i : Int) + 1) +
      (match m.kind with
       | .trendAdd => 0
       | .trendSeasonalAdd p => m.seasonals.getD ((histLen + i) % p) 0)

/-- A successful result of `forecast_sales`: the resampled historical
series, the model kind that was fitted, the forecast values and the product
description (`forecast_sales` returns the triple
`(product_df, forecast, product_description)`). -/
structure ForecastResult where
  historical : List (Nat × Int)
  modelKind : ModelKind
  forecastValues : List Int
  productDescription : String
deriving Repr, DecidableEq

/-- Outcome of one `forecast_sales` call: the `(None, None, None)` no-data
signal for a product with no matching rows, a fitting exception, or a
result triple. -/
inductive ForecastOutcome where
  | noData
  | fitFailure (e : FitError)
  | ok (r : ForecastResult)
deriving Repr, DecidableEq

def ForecastOutcome.isOk : ForecastOutcome → Bool
  | .ok _ => true
  | _ => false

def ForecastOutcome.kind? : ForecastOutcome → Option ModelKind
  | .ok r => some r.modelKind
  | _ => none

def ForecastOutcome.values? : ForecastOutcome → Option (List Int)
  | .ok r => some r.forecastValues
  | _ => none

def ForecastOutcome.hist? : ForecastOutcome → Option (List (Nat × Int))
  | .ok r => some r.historical
  | _ => none

def ForecastOutcome.desc? : ForecastOutcome → Option String
  | .ok r => some r.productDescription
  | _ => none

/-- `forecast_sales(df, product_code, forecast_periods=12)` of `main.py`:
select the product's rows; empty selection returns the no-data triple;
the description is `product_df["PRODUCT_DESCRIPTION"].iloc[0]` whenever the
column is non-empty (which it always is here, since the empty frame already
returned), else the synthesized `f"Product {product_code}"`; resample to
monthly frequency; fit a trend-only model when the resampled series has
fewer than 24 observations, else a trend-plus-seasonal model with
`seasonal_periods=12`; forecast `forecast_periods` steps. -/
def forecast_sales (df : List Row) (product_code : Int)
    (forecast_periods : Nat := 12) : ForecastOutcome :=
  let product_df := df.filter fun r => r.PRODUCT_CODE == product_code
  if product_df.isEmpty then .noData
  else
    let product_description :=
      match product_df.head? with
      | some r => r.PRODUCT_DESCRIPTION
      | none => "Product " ++ toString product_code
    let series := resampleMonthly product_df
    let kind : ModelKind :=
      if series.length < 24 then .trendAdd else .trendSeasonalAdd 12
    match fitExponentialSmoothing kind (series.map Prod.snd) with
    | .error e => .fitFailure e
    | .ok m =>
        .ok { historical := series
              modelKind := kind
              forecastValues := m.forecastOut series.length forecast_periods
              productDescription := product_description }

/-- The forecast time axis computed in `plot_forecasts`:
`pd.date_range(start=historical_data.index[-1] + pd.DateOffset(months=1),
periods=len(forecast), freq="M")` — at month granularity, the `n` months
following the last historical month. -/
def forecast_index (historical : List (Nat × Int)) (n : Nat) : List Nat :=
  match historical.getLast? with
  | some last => (List.range n).map fun i => last.1 + 1 + i
  | none => []

/-- The description-selection rule as the specification words it (spec
§4.3): the description of the first matching row with a non-empty
description, falling back to the synthesized label when all are empty.
Written from the spec, for comparison with the source's rule. -/
def descriptionPerSpec (df : List Row) (product_code : Int) : String :=
  match (df.filter fun r => r.PRODUCT_CODE == product_code).find?
      (fun r => r.PRODUCT_DESCRIPTION != "") with
  | some r => r.PRODUCT_DESCRIPTION
  | none => "Product " ++ toString product_code

/-! ## Helper lemmas -/

theorem normalizeRow_fields (raw : RawRow) (r : Row)
    (h : normalizeRow raw = some r) :
    r.PRODUCT_DESCRIPTION = fixDescription raw.PRODUCT_DESCRIPTION ∧
    r.MONTH = parseMonth raw.MONTH ∧
    r.YEAR = (parseMonth raw.MONTH).map (fun v => v / 12) ∧
    r.QUANTITY = clampQuantity raw.QUANTITY := by
  unfold normalizeRow at h
  cases hc : fixProductCode raw.PRODUCT_CODE with
  | none => rw [hc] at h; exact Option.noConfusion h
  | some c =>
    rw [hc] at h
    have h2 : some
        ({ PRODUCT_CODE := c
           PRODUCT_DESCRIPTION := fixDescription raw.PRODUCT_DESCRIPTION
           MONTH := parseMonth raw.MONTH
           YEAR := (parseMonth raw.MONTH).map fun v => v / 12
           QUANTITY := clampQuantity raw.QUANTITY } : Row) = some r := h
    injection h2 with h3
    subst h3
    exact ⟨rfl, rfl, rfl, rfl⟩

theorem mem_of_normalizeTable (sales : List RawRow) (rows : List Row)
    (h : normalizeTable sales = some rows) :
    ∀ r ∈ rows, ∃ raw, raw ∈ sales ∧ normalizeRow raw = some r := by
  induction sales generalizing rows with
  | nil =>
    injection h with h
    subst h
    intro r hr
    exact absurd hr (List.not_mem_nil r)
  | cons a l ih =>
    unfold normalizeTable at h
    cases ha : normalizeRow a with
    | none => rw [ha] at h; exact Option.noConfusion h
    | some b =>
      rw [ha] at h
      cases hl : normalizeTable l with
      | none => rw [hl] at h; exact Option.noConfusion h
      | some bs =>
        rw [hl] at h
        have h2 : some (b :: bs) = some rows := h
        injection h2 with h3
        subst h3
        intro r hr
        rcases List.mem_cons.mp hr with hrb | hrt
        · exact ⟨a, List.mem_cons_self a l, by rw [ha, hrb]⟩
        · rcases ih bs hl r hrt with ⟨raw, hraw, hn⟩
          exact ⟨raw, List.mem_cons_of_mem a hraw, hn⟩

theorem fixYears_quantity (rows : List Row) :
    ∀ r ∈ fixYears rows, ∃ r0, r0 ∈ rows ∧ r.QUANTITY = r0.QUANTITY := by
  unfold fixYears
  split
  · split
    · intro r hr
      rcases List.mem_map.mp hr with ⟨r0, hr0, hre⟩
      exact ⟨r0, hr0, by rw [← hre]⟩
    · intro r hr; exact ⟨r, hr, rfl⟩
  · intro r hr; exact ⟨r, hr, rfl⟩

theorem clampQuantity_nonneg (q : Option Int) (x : Int)
    (h : clampQuantity q = some x) : 0 ≤ x := by
  cases q with
  | none => exact Option.noConfusion h
  | some v =>
    by_cases hv : v < 0
    · have h2 : some (0 : Int) = some x := by
        rw [← h]; simp [clampQuantity, hv]
      injection h2 with h3
      omega
    · have h2 : some v = some x := by
        rw [← h]; simp [clampQuantity, hv]
      injection h2 with h3
      omega

theorem parseMonth_year (s : String) (m : Nat) (h : parseMonth s = some m) :
    m / 12 = 1900 := by
  unfold parseMonth at h
  cases hi : monthIndex? (((s.toList.take 3).map Char.toLower).asString) with
  | none => rw [hi] at h; exact Option.noConfusion h
  | some i =>
    rw [hi] at h
    have h2 : some (1900 * 12 + i) = some m := h
    injection h2 with h3
    have hlt : i < 12 := by
      unfold monthIndex? at hi
      exact List.mem_range.mp (List.mem_of_find?_eq_some hi)
    omega

theorem normalizeRow_year (raw : RawRow) (r : Row)
    (h : normalizeRow raw = some r) :
    r.YEAR = none ∨ r.YEAR = some 1900 := by
  obtain ⟨-, -, hy, -⟩ := normalizeRow_fields raw r h
  cases hm : parseMonth raw.MONTH with
  | none => left; rw [hy, hm]; rfl
  | some m =>
    right
    rw [hy, hm]
    simp only [Option.map_some', Option.some.injEq]
    exact parseMonth_year raw.MONTH m hm

theorem pandasMin?_mem (l : List Nat) (y : Nat)
    (h : pandasMin? l = some y) : y ∈ l := by
  induction l generalizing y with
  | nil => exact Option.noConfusion h
  | cons a t ih =>
    have hstep : pandasMin? (a :: t)
        = (match pandasMin? t with
           | none => some a
           | some b => some (min a b)) := rfl
    rw [hstep] at h
    cases ht : pandasMin? t with
    | none =>
      rw [ht] at h
      injection h with h
      rw [← h]
      exact List.mem_cons_self a t
    | some b =>
      rw [ht] at h
      injection h with h
      rcases le_total a b with hab | hab
      · rw [min_eq_left hab] at h
        rw [← h]
        exact List.mem_cons_self a t
      · rw [min_eq_right hab] at h
        rw [← h]
        exact List.mem_cons_of_mem a (ih b ht)

theorem fixYears_noop_aux (sales : List RawRow) (rows : List Row)
    (h : normalizeTable sales = some rows) : fixYears rows = rows := by
  unfold fixYears
  cases hmin : pandasMin? ((rows.map Row.YEAR).filterMap id) with
  | none => rfl
  | some y =>
    have hy : y ∈ (rows.map Row.YEAR).filterMap id := pandasMin?_mem _ _ hmin
    rcases List.mem_filterMap.mp hy with ⟨oy, hoy, hid⟩
    rcases List.mem_map.mp hoy with ⟨r, hr, hry⟩
    rcases mem_of_normalizeTable sales rows h r hr with ⟨raw, -, hnr⟩
    have hoys : oy = some y := hid
    have hrys : r.YEAR = some y := by rw [hry, hoys]
    rcases normalizeRow_year raw r hnr with h0 | h0
    · rw [h0] at hrys; exact Option.noConfusion hrys
    · rw [h0] at hrys
      injection hrys with hy1900
      have : ¬ y < 1900 := by omega
      simp only [this, if_false]

/-! ## Claims about normalization and season filtering -/

/-- C4 (amended): in every table produced by `load_sales_data`, every
*present* quantity is non-negative (negatives were clamped to zero,
non-negatives kept), and a missing input quantity stays missing — it is
not replaced by zero. -/
theorem load_quantity_nonneg (sales : List RawRow) (rows : List Row)
    (h : load_sales_data sales = some rows) :
    (∀ r ∈ rows, ∀ q, r.QUANTITY = some q → 0 ≤ q) ∧
    (∀ (raw : RawRow) (r : Row), raw.QUANTITY = none →
       normalizeRow raw = some r → r.QUANTITY = none) := by
  constructor
  · intro r hr q hq
    unfold load_sales_data at h
    cases hm : normalizeTable sales with
    | none => rw [hm] at h; exact Option.noConfusion h
    | some rows0 =>
      rw [hm] at h
      have h2 : some (fixYears rows0) = some rows := h
      injection h2 with h3
      subst h3
      rcases fixYears_quantity rows0 r hr with ⟨r0, hr0, hqeq⟩
      rcases mem_of_normalizeTable sales rows0 hm r0 hr0 with ⟨raw, -, hnr⟩
      obtain ⟨-, -, -, hcq⟩ := normalizeRow_fields raw r0 hnr
      exact clampQuantity_nonneg raw.QUANTITY q (by rw [← hcq, ← hqeq, hq])
  · intro raw r hmiss hnr
    obtain ⟨-, -, -, hcq⟩ := normalizeRow_fields raw r hnr
    rw [hcq, hmiss]
    rfl

/-- C4 counterexample: it is not the case that every quantity in a
normalized table is a present value `≥ 0` — a missing (`NaN`) input
quantity survives normalization as missing, because `np.where(q < 0, 0, q)`
keeps `NaN` (the comparison is false), contradicting "missing values are
treated as zero". -/
theorem load_quantity_missing_not_zeroed :
    ¬ (∀ (sales : List RawRow) (rows : List Row),
        load_sales_data sales = some rows →
        ∀ r ∈ rows, ∃ q, r.QUANTITY = some q ∧ 0 ≤ q) := by
  intro hclaim
  have h := hclaim [⟨"1", "a", "Jan", none⟩]
      [⟨1, "a", some 22800, some 1900, none⟩] (by decide)
      ⟨1, "a", some 22800, some 1900, none⟩ (by decide)
  rcases h with ⟨q, hq, -⟩
  exact Option.noConfusion hq

/-- Witness for C4: the table with raw quantity `-5` normalizes it to `0`,
and the theorem instantiated there yields `0 ≤ 0`. -/
theorem load_quantity_nonneg_witness :
    load_sales_data [⟨"2-0", "B!", "FebX", some (-5)⟩]
      = some [⟨20, "b ", some 22801, some 1900, some 0⟩] ∧ (0 : Int) ≤ 0 :=
  ⟨by decide,
   (load_quantity_nonneg [⟨"2-0", "B!", "FebX", some (-5)⟩]
      [⟨20, "b ", some 22801, some 1900, some 0⟩] (by decide)).1
     ⟨20, "b ", some 22801, some 1900, some 0⟩ (by decide) 0 rfl⟩

/-- C5: the year-correction branch of `load_sales_data` is a no-op.  By the
time it runs, `sales["MONTH"]` has been overwritten with the parsed
datetimes, so `pd.to_datetime(sales["MONTH"]).dt.year` recomputes exactly
the derived year — not the year of the original month text; moreover the
`%b-%d` parse pins every derived year to exactly 1900, so the guard
`min() < 1900` can never fire.  Concretely, a month text carrying a real
year ("Jan-2024") still comes out with year 1900. -/
theorem year_correction_is_noop :
    (∀ (sales : List RawRow) (rows : List Row),
        normalizeTable sales = some rows → fixYears rows = rows) ∧
    load_sales_data [⟨"1", "a", "Jan-2024", some 1⟩]
      = some [⟨1, "a", some 22800, some 1900, some 1⟩] :=
  ⟨fixYears_noop_aux, by decide⟩

/-- Witness for C5: the no-op statement applied to the concrete
normalized table of `[("1", "a", "Jan-2024", 1)]`. -/
theorem year_correction_is_noop_witness :
    fixYears [⟨1, "a", some 22800, some 1900, some 1⟩]
      = [⟨1, "a", some 22800, some 1900, some 1⟩] :=
  year_correction_is_noop.1 [⟨"1", "a", "Jan-2024", some 1⟩]
    [⟨1, "a", some 22800, some 1900, some 1⟩] (by decide)

/-- C9: season filtering is idempotent — for each of the five valid season
names, filtering an already-filtered table changes nothing. -/
theorem filter_by_season_idempotent (df : List Row) (s : String)
    (h : s ∈ ["All", "Winter", "Spring", "Summer", "Autumn"]) :
    (filter_by_season df s).bind (fun d2 => filter_by_season d2 s)
      = filter_by_season df s := by
  simp only [List.mem_cons] at h
  rcases h with h | h | h | h | h | h
  all_goals first
  | (subst h
     simp [filter_by_season, SEASON_MONTHS, List.filter_filter])
  | exact absurd h (List.not_mem_nil s)

/-- Witness for C9: idempotence at a concrete two-row table and season
"Winter". -/
theorem filter_by_season_idempotent_witness :
    (filter_by_season
        [⟨1, "a", some 22800, some 1900, some 2⟩,
         ⟨1, "b", some 22804, some 1900, some 3⟩] "Winter").bind
      (fun d2 => filter_by_season d2 "Winter")
      = filter_by_season
          [⟨1, "a", some 22800, some 1900, some 2⟩,
           ⟨1, "b", some 22804, some 1900, some 3⟩] "Winter" :=
  filter_by_season_idempotent _ "Winter" (by decide)

/-- C10: looking up an unknown season name is an unguarded dict access —
`filter_by_season` fails with a `KeyError` (modelled as `none`) for every
season string outside the five known names. -/
theorem filter_by_season_unknown_key (df : List Row) (s : String)
    (h : s ∉ ["All", "Winter", "Spring", "Summer", "Autumn"]) :
    filter_by_season df s = none := by
  simp only [List.mem_cons, not_or] at h
  obtain ⟨h1, h2, h3, h4, h5, -⟩ := h
  simp [filter_by_season, SEASON_MONTHS, h1, h2, h3, h4, h5]

/-- Witness for C10: the season "Monsoon" hits the `KeyError` path. -/
theorem filter_by_season_unknown_key_witness :
    filter_by_season [⟨1, "a", some 22800, some 1900, some 2⟩] "Monsoon"
      = none :=
  filter_by_season_unknown_key _ "Monsoon" (by decide)

/-! ## The forecast engine -/

theorem forecast_sales_ok_elim (df : List Row) (code : Int) (n : Nat)
    (r : ForecastResult) (h : forecast_sales df code n = .ok r) :
    ∃ m, fitExponentialSmoothing
        (if (resampleMonthly (df.filter fun x => x.PRODUCT_CODE == code)).length < 24
         then ModelKind.trendAdd else ModelKind.trendSeasonalAdd 12)
        ((resampleMonthly (df.filter fun x => x.PRODUCT_CODE == code)).map Prod.snd)
        = .ok m ∧
      r = { historical := resampleMonthly (df.filter fun x => x.PRODUCT_CODE == code)
            modelKind :=
              if (resampleMonthly (df.filter fun x => x.PRODUCT_CODE == code)).length < 24
              then ModelKind.trendAdd else ModelKind.trendSeasonalAdd 12
            forecastValues :=
              m.forecastOut
                (resampleMonthly (df.filter fun x => x.PRODUCT_CODE == code)).length n
            productDescription :=
              match (df.filter fun x => x.PRODUCT_CODE == code).head? with
              | some r0 => r0.PRODUCT_DESCRIPTION
              | none => "Product " ++ toString code } := by
  simp only [forecast_sales] at h
  split at h
  · exact ForecastOutcome.noConfusion h
  · split at h
    · exact ForecastOutcome.noConfusion h
    · next m heq =>
        injection h with h2
        exact ⟨m, heq, h2.symm⟩

theorem ForecastOutcome.isOk_elim (o : ForecastOutcome) (h : o.isOk = true) :
    ∃ r, o = .ok r := by
  cases o with
  | ok r => exact ⟨r, rfl⟩
  | noData => exact absurd h (by simp [ForecastOutcome.isOk])
  | fitFailure e => exact absurd h (by simp [ForecastOutcome.isOk])

/-- Concrete table whose product-1 series has 2 monthly observations:
the trend-only branch. -/
def dfTrendOnly : List Row :=
  [⟨1, "a", some 22800, some 1900, some 2⟩,
   ⟨1, "b", some 22801, some 1900, some 3⟩]

/-- Concrete table whose product-1 series spans 24 months after monthly
resampling (gap months zero-filled): the seasonal branch. -/
def dfSeasonal : List Row :=
  [⟨1, "a", some 22800, some 1900, some 2⟩,
   ⟨1, "a", some 22823, some 1901, some 3⟩]

/-- C1: model selection is deterministic on the length of the
monthly-resampled series — every successful `forecast_sales` call fitted
the additive-trend-only model when that length is below 24, and the
additive-trend, additive-seasonal model with `seasonal_periods = 12`
otherwise. -/
theorem forecast_model_selection (df : List Row) (code : Int) (n : Nat)
    (h : (forecast_sales df code n).isOk = true) :
    (forecast_sales df code n).kind?
      = some (if (resampleMonthly
                    (df.filter fun x => x.PRODUCT_CODE == code)).length < 24
              then ModelKind.trendAdd else ModelKind.trendSeasonalAdd 12) := by
  rcases ForecastOutcome.isOk_elim _ h with ⟨r, hr⟩
  rcases forecast_sales_ok_elim df code n r hr with ⟨m, -, hrec⟩
  rw [hr, hrec]
  rfl

/-- Witness for C1: a 2-month series selects the trend-only model and a
24-month series selects the seasonal model with period 12. -/
theorem forecast_model_selection_witness :
    (forecast_sales dfTrendOnly 1 12).kind? = some ModelKind.trendAdd ∧
    (forecast_sales dfSeasonal 1 12).kind?
      = some (ModelKind.trendSeasonalAdd 12) :=
  ⟨(forecast_model_selection dfTrendOnly 1 12 (by decide)).trans (by decide),
   (forecast_model_selection dfSeasonal 1 12 (by decide)).trans (by decide)⟩

/-- C2: every successful forecast has exactly `n` values, and the forecast
time axis computed by `plot_forecasts` is the `n` consecutive months
starting exactly one month after the last historical month — no gap, no
overlap. -/
theorem forecast_horizon_and_axis (df : List Row) (code : Int) (n lastM : Nat)
    (q : Int) (h : (forecast_sales df code n).isOk = true)
    (hl : ((forecast_sales df code n).hist?.getD []).getLast? = some (lastM, q)) :
    ((forecast_sales df code n).values?.getD []).length = n ∧
    forecast_index ((forecast_sales df code n).hist?.getD [])
        ((forecast_sales df code n).values?.getD []).length
      = (List.range n).map (fun i => lastM + 1 + i) := by
  rcases ForecastOutcome.isOk_elim _ h with ⟨r, hr⟩
  rcases forecast_sales_ok_elim df code n r hr with ⟨m, -, hrec⟩
  rw [hr, hrec] at hl ⊢
  simp only [ForecastOutcome.values?, ForecastOutcome.hist?,
    Option.getD_some] at hl ⊢
  have hlen : (HoltWintersModel.forecastOut m
      (resampleMonthly (df.filter fun x => x.PRODUCT_CODE == code)).length n).length
      = n := by
    unfold HoltWintersModel.forecastOut
    rw [List.length_map, List.length_range]
  refine ⟨hlen, ?_⟩
  rw [hlen]
  unfold forecast_index
  rw [hl]

/-- Witness for C2: with a 2-month history ending at month 22801 and
horizon 12, the forecast has 12 values on the axis 22802..22813. -/
theorem forecast_horizon_and_axis_witness :
    ((forecast_sales dfTrendOnly 1 12).values?.getD []).length = 12 ∧
    forecast_index ((forecast_sales dfTrendOnly 1 12).hist?.getD [])
        ((forecast_sales dfTrendOnly 1 12).values?.getD []).length
      = (List.range 12).map (fun i => 22801 + 1 + i) :=
  forecast_horizon_and_axis dfTrendOnly 1 12 22801 3 (by decide) (by decide)

/-- C3: a product with zero matching rows yields the no-data signal
(`None` results), while a nonempty selection whose resampled series has
fewer than 2 observations fails with `InsufficientDataError` instead of
producing a forecast. -/
theorem forecast_insufficient_data (df : List Row) (code : Int) (n : Nat) :
    ((df.filter fun x => x.PRODUCT_CODE == code) = [] →
       forecast_sales df code n = .noData) ∧
    ((df.filter fun x => x.PRODUCT_CODE == code) ≠ [] →
     (resampleMonthly (df.filter fun x => x.PRODUCT_CODE == code)).length < 2 →
       forecast_sales df code n = .fitFailure .insufficientData) := by
  constructor
  · intro hnil
    simp only [forecast_sales, hnil]
    rfl
  · intro hne hlen
    simp only [forecast_sales]
    have hE : (df.filter fun x => x.PRODUCT_CODE == code).isEmpty = false := by
      cases hpd : df.filter fun x => x.PRODUCT_CODE == code with
      | nil => exact absurd hpd hne
      | cons a t => rfl
    rw [hE]
    have hfit : fitExponentialSmoothing
        (if (resampleMonthly
               (df.filter fun x => x.PRODUCT_CODE == code)).length < 24
         then ModelKind.trendAdd else ModelKind.trendSeasonalAdd 12)
        ((resampleMonthly (df.filter fun x => x.PRODUCT_CODE == code)).map
          Prod.snd) = .error .insufficientData := by
      unfold fitExponentialSmoothing
      rw [if_pos (by rw [List.length_map]; exact hlen)]
    simp only [Bool.false_eq_true, if_false, hfit]

/-- Witness for C3: a single historical record gives a 1-point series and
the insufficient-data failure; a product with no rows gives the no-data
signal. -/
theorem forecast_insufficient_data_witness :
    forecast_sales [⟨1, "a", some 22800, some 1900, some 2⟩] 1 12
        = .fitFailure .insufficientData ∧
    forecast_sales [⟨1, "a", some 22800, some 1900, some 2⟩] 2 12 = .noData :=
  ⟨(forecast_insufficient_data [⟨1, "a", some 22800, some 1900, some 2⟩] 1 12).2
      (by decide) (by decide),
   (forecast_insufficient_data [⟨1, "a", some 22800, some 1900, some 2⟩] 2 12).1
      (by decide)⟩

/-- C6 (amended): the description attached to a successful forecast is the
description of the *first* matching row unconditionally — empty or not.
The guard in the source tests `product_df["PRODUCT_DESCRIPTION"].empty`,
i.e. whether the *column* (the row set) is empty, which the earlier
empty-frame return already excludes, so the "Product {id}" fallback is
unreachable. -/
theorem forecast_description_is_first_row (df : List Row) (code : Int)
    (n : Nat) (r0 : Row) (h : (forecast_sales df code n).isOk = true)
    (hh : (df.filter fun x => x.PRODUCT_CODE == code).head? = some r0) :
    (forecast_sales df code n).desc? = some r0.PRODUCT_DESCRIPTION := by
  rcases ForecastOutcome.isOk_elim _ h with ⟨r, hr⟩
  rcases forecast_sales_ok_elim df code n r hr with ⟨m, -, hrec⟩
  rw [hr, hrec]
  simp only [ForecastOutcome.desc?, hh]

/-- C6 counterexample: with a first matching row whose description is
empty and a second with description "widget", the source keeps the empty
description, whereas the spec's rule ("first row with non-empty
description") picks "widget". -/
theorem forecast_description_not_per_spec :
    (forecast_sales
        [⟨1, "", some 22800, some 1900, some 2⟩,
         ⟨1, "widget", some 22801, some 1900, some 3⟩] 1 12).desc? = some "" ∧
    descriptionPerSpec
        [⟨1, "", some 22800, some 1900, some 2⟩,
         ⟨1, "widget", some 22801, some 1900, some 3⟩] 1 = "widget" ∧
    ("" : String) ≠ "widget" :=
  ⟨by decide, by decide, by decide⟩

/-- Witness for C6: at the two-row table above, the forecast carries the
first row's (empty) description. -/
theorem forecast_description_is_first_row_witness :
    (forecast_sales
        [⟨1, "", some 22800, some 1900, some 2⟩,
         ⟨1, "widget", some 22801, some 1900, some 3⟩] 1 12).desc?
      = some (Row.PRODUCT_DESCRIPTION ⟨1, "", some 22800, some 1900, some 2⟩) :=
  forecast_description_is_first_row _ 1 12 ⟨1, "", some 22800, some 1900, some 2⟩
    (by decide) (by decide)

/-! ## The aggregator: gap-free grid and mass conservation -/

theorem getD_range_map {α : Type} (n i : Nat) (f : Nat → α) (d : α)
    (h : i < n) : ((List.range n).map f).getD i d = f i := by
  rw [List.getD_eq_getElem?_getD, List.getElem?_map, List.getElem?_range h]
  rfl

theorem pandasMin?_cons (a : Nat) (t : List Nat) :
    pandasMin? (a :: t)
      = match pandasMin? t with
        | none => some a
        | some b => some (min a b) := rfl

theorem pandasMax?_cons (a : Nat) (t : List Nat) :
    pandasMax? (a :: t)
      = match pandasMax? t with
        | none => some a
        | some b => some (max a b) := rfl

theorem eq_nil_of_pandasMin?_eq_none (l : List Nat)
    (h : pandasMin? l = none) : l = [] := by
  cases l with
  | nil => rfl
  | cons a t =>
    rw [pandasMin?_cons] at h
    cases hpt : pandasMin? t <;> rw [hpt] at h <;> exact Option.noConfusion h

theorem eq_nil_of_pandasMax?_eq_none (l : List Nat)
    (h : pandasMax? l = none) : l = [] := by
  cases l with
  | nil => rfl
  | cons a t =>
    rw [pandasMax?_cons] at h
    cases hpt : pandasMax? t <;> rw [hpt] at h <;> exact Option.noConfusion h

theorem pandasMin?_le (l : List Nat) (y : Nat) (h : pandasMin? l = some y) :
    ∀ a ∈ l, y ≤ a := by
  induction l generalizing y with
  | nil => intro a ha; exact absurd ha (List.not_mem_nil a)
  | cons b t ih =>
    rw [pandasMin?_cons] at h
    cases ht : pandasMin? t with
    | none =>
      rw [ht] at h
      injection h with h
      have ht0 : t = [] := eq_nil_of_pandasMin?_eq_none t ht
      subst ht0
      intro a ha
      rcases List.mem_cons.mp ha with hab | hin
      · omega
      · exact absurd hin (List.not_mem_nil a)
    | some c =>
      rw [ht] at h
      injection h with h
      intro a ha
      rcases List.mem_cons.mp ha with hab | hin
      · subst hab; omega
      · have := ih c ht a hin
        omega

theorem pandasMax?_ge (l : List Nat) (y : Nat) (h : pandasMax? l = some y) :
    ∀ a ∈ l, a ≤ y := by
  induction l generalizing y with
  | nil => intro a ha; exact absurd ha (List.not_mem_nil a)
  | cons b t ih =>
    rw [pandasMax?_cons] at h
    cases ht : pandasMax? t with
    | none =>
      rw [ht] at h
      injection h with h
      have ht0 : t = [] := eq_nil_of_pandasMax?_eq_none t ht
      subst ht0
      intro a ha
      rcases List.mem_cons.mp ha with hab | hin
      · omega
      · exact absurd hin (List.not_mem_nil a)
    | some c =>
      rw [ht] at h
      injection h with h
      intro a ha
      rcases List.mem_cons.mp ha with hab | hin
      · subst hab; omega
      · have := ih c ht a hin
        omega

theorem filter_isSome_eq_nil (rows : List Row)
    (h : rows.filterMap Row.MONTH = []) :
    rows.filter (fun r => r.MONTH.isSome) = [] := by
  induction rows with
  | nil => rfl
  | cons a t ih =>
    rw [List.filterMap_cons] at h
    cases ha : a.MONTH with
    | some m =>
      rw [ha] at h
      exact List.noConfusion h
    | none =>
      rw [ha] at h
      rw [List.filter_cons]
      simp only [ha, Option.isSome_none, Bool.false_eq_true, if_false]
      exact ih h

theorem sum_ite_single (n j : Nat) (c : Int) :
    ((List.range n).map fun i => if j = i then c else 0).sum
      = if j < n then c else 0 := by
  induction n with
  | zero => simp
  | succ k ih =>
    rw [List.range_succ, List.map_append, List.sum_append]
    simp only [List.map_cons, List.map_nil, List.sum_cons, List.sum_nil]
    rw [ih]
    by_cases hjk : j = k
    · subst hjk
      rw [if_neg (lt_irrefl j), if_pos rfl, if_pos (by omega)]
      ring
    · by_cases hlt : j < k
      · rw [if_pos hlt, if_neg hjk, if_pos (by omega)]
        ring
      · rw [if_neg hlt, if_neg hjk, if_neg (by omega)]
        ring

theorem sum_map_add_split (l : List Nat) (f g : Nat → Int) :
    (l.map fun i => f i + g i).sum = (l.map f).sum + (l.map g).sum := by
  induction l with
  | nil => simp
  | cons a t ih =>
    simp only [List.map_cons, List.sum_cons, ih]
    ring

theorem bucket_sum (rows : List Row) (lo n : Nat)
    (hmem : ∀ r ∈ rows, ∀ m, r.MONTH = some m → lo ≤ m ∧ m < lo + n) :
    ((List.range n).map fun i =>
        ((rows.filter fun r => r.MONTH == some (lo + i)).map fun r =>
           r.QUANTITY.getD 0).sum).sum
      = ((rows.filter fun r => r.MONTH.isSome).map fun r =>
           r.QUANTITY.getD 0).sum := by
  induction rows with
  | nil => simp
  | cons a t ih =>
    have hmemt : ∀ r ∈ t, ∀ m, r.MONTH = some m → lo ≤ m ∧ m < lo + n :=
      fun r hr => hmem r (List.mem_cons_of_mem a hr)
    have hsplit : ∀ i ∈ List.range n,
        ((((a :: t).filter fun r => r.MONTH == some (lo + i)).map fun r =>
            r.QUANTITY.getD 0).sum)
          = (if a.MONTH == some (lo + i) then a.QUANTITY.getD 0 else 0)
            + (((t.filter fun r => r.MONTH == some (lo + i)).map fun r =>
                 r.QUANTITY.getD 0).sum) := by
      intro i _
      rw [List.filter_cons]
      by_cases hpa : (a.MONTH == some (lo + i)) = true
      · rw [if_pos hpa, if_pos hpa, List.map_cons, List.sum_cons]
      · rw [if_neg hpa, if_neg hpa, zero_add]
    rw [List.map_congr_left hsplit, sum_map_add_split, ih hmemt,
      List.filter_cons]
    cases ha : a.MONTH with
    | none =>
      have hz : ∀ i ∈ List.range n,
          (if ((none : Option Nat) == some (lo + i)) = true
           then a.QUANTITY.getD 0 else 0) = (0 : Int) := by
        intro i _
        simp
      rw [List.map_congr_left hz]
      simp
    | some m =>
      rcases hmem a (List.mem_cons_self a t) m ha with ⟨hm1, hm2⟩
      have hone : ∀ i ∈ List.range n,
          (if ((some m : Option Nat) == some (lo + i)) = true
           then a.QUANTITY.getD 0 else 0)
            = if m - lo = i then a.QUANTITY.getD 0 else 0 := by
        intro i _
        by_cases he : m = lo + i
        · rw [if_pos (by simp [he]), if_pos (by omega)]
        · rw [if_neg (by simp only [beq_iff_eq, Option.some.injEq]; omega),
            if_neg (by omega)]
      rw [List.map_congr_left hone, sum_ite_single, if_pos (by omega)]
      simp

theorem resampleMonthly_sum (rows : List Row) :
    ((resampleMonthly rows).map Prod.snd).sum
      = ((rows.filter fun r => r.MONTH.isSome).map fun r =>
           r.QUANTITY.getD 0).sum := by
  simp only [resampleMonthly]
  cases hmin : pandasMin? (rows.filterMap Row.MONTH) with
  | none =>
    have hnil := eq_nil_of_pandasMin?_eq_none _ hmin
    rw [hnil, filter_isSome_eq_nil rows hnil]
    rfl
  | some lo =>
    cases hmax : pandasMax? (rows.filterMap Row.MONTH) with
    | none =>
      have hnil := eq_nil_of_pandasMax?_eq_none _ hmax
      rw [hnil] at hmin
      exact Option.noConfusion hmin
    | some hi =>
      have hlohi : lo ≤ hi :=
        pandasMax?_ge _ _ hmax lo (pandasMin?_mem _ _ hmin)
      have hmem : ∀ r ∈ rows, ∀ m, r.MONTH = some m →
          lo ≤ m ∧ m < lo + (hi + 1 - lo) := by
        intro r hr m hm
        have hmmem : m ∈ rows.filterMap Row.MONTH :=
          List.mem_filterMap.mpr ⟨r, hr, hm⟩
        have h1 := pandasMin?_le _ _ hmin m hmmem
        have h2 := pandasMax?_ge _ _ hmax m hmmem
        omega
      have hb := bucket_sum rows lo (hi + 1 - lo) hmem
      dsimp only
      rw [List.map_map]
      exact hb

/-- C7: the resampled per-product series is gap-free — it has one entry
per calendar month from the earliest to the latest observed month, the
entry at position `i` carries month `lo + i` (so adjacent entries differ
by exactly one month), and a month with no observations carries
quantity `0`. -/
theorem resample_no_gaps (rows : List Row) (lo hi : Nat)
    (hlo : pandasMin? (rows.filterMap Row.MONTH) = some lo)
    (hhi : pandasMax? (rows.filterMap Row.MONTH) = some hi) :
    (resampleMonthly rows).length = hi + 1 - lo ∧
    (∀ i, i < (resampleMonthly rows).length →
       ((resampleMonthly rows).getD i (0, 0)).1 = lo + i) ∧
    (∀ i, i < (resampleMonthly rows).length →
       (∀ r ∈ rows, r.MONTH ≠ some (lo + i)) →
       ((resampleMonthly rows).getD i (0, 0)).2 = 0) := by
  have hres : resampleMonthly rows
      = (List.range (hi + 1 - lo)).map fun i =>
          (lo + i,
           ((rows.filter fun r => r.MONTH == some (lo + i)).map fun r =>
              r.QUANTITY.getD 0).sum) := by
    simp only [resampleMonthly]
    rw [hlo, hhi]
  rw [hres]
  have hlen : ((List.range (hi + 1 - lo)).map fun i =>
      (lo + i,
       ((rows.filter fun r => r.MONTH == some (lo + i)).map fun r =>
          r.QUANTITY.getD 0).sum)).length = hi + 1 - lo := by
    rw [List.length_map, List.length_range]
  refine ⟨hlen, ?_, ?_⟩
  · intro i hi2
    rw [hlen] at hi2
    rw [getD_range_map _ _ _ _ hi2]
  · intro i hi2 hnone
    rw [hlen] at hi2
    rw [getD_range_map _ _ _ _ hi2]
    have hfil : (rows.filter fun r => r.MONTH == some (lo + i)) = [] := by
      rw [List.filter_eq_nil_iff]
      intro r hr
      simp only [beq_iff_eq]
      exact hnone r hr
    rw [hfil]
    rfl

/-- Witness for C7: rows at months 100 and 103 resample to a 4-month grid;
position 1 carries month 101 with zero-filled quantity. -/
theorem resample_no_gaps_witness :
    (resampleMonthly
        [⟨1, "a", some 100, some 8, some 2⟩,
         ⟨1, "a", some 103, some 8, some 5⟩]).length = 103 + 1 - 100 ∧
    ((resampleMonthly
        [⟨1, "a", some 100, some 8, some 2⟩,
         ⟨1, "a", some 103, some 8, some 5⟩]).getD 1 (0, 0)).1 = 100 + 1 ∧
    ((resampleMonthly
        [⟨1, "a", some 100, some 8, some 2⟩,
         ⟨1, "a", some 103, some 8, some 5⟩]).getD 1 (0, 0)).2 = 0 :=
  ⟨(resample_no_gaps _ 100 103 (by decide) (by decide)).1,
   (resample_no_gaps _ 100 103 (by decide) (by decide)).2.1 1 (by decide),
   (resample_no_gaps _ 100 103 (by decide) (by decide)).2.2 1 (by decide)
     (by decide)⟩

/-- C8 (amended): the quantities of the aggregated series sum to the
quantities of the matching input rows *that carry a valid (parsed) month*
(missing quantities count as zero on both sides, as `pandas` `sum` skips
`NaN`).  Rows whose month failed to parse (`NaT`) are dropped by
`resample` and do not contribute to the output. -/
theorem forecast_mass_conservation (df : List Row) (code : Int) :
    ((resampleMonthly (df.filter fun r => r.PRODUCT_CODE == code)).map
        Prod.snd).sum
      = (((df.filter fun r => r.PRODUCT_CODE == code).filter fun r =>
            r.MONTH.isSome).map fun r => r.QUANTITY.getD 0).sum :=
  resampleMonthly_sum _

/-- C8 counterexample: mass conservation over *all* matching rows fails —
a matching row with an unparsable month (`NaT`) and quantity 5 is counted
in the input sum but dropped by the resampler, so the output sums to 2
while the matching input rows sum to 7. -/
theorem forecast_mass_conservation_cex :
    ¬ (∀ (df : List Row) (code : Int),
        ((resampleMonthly (df.filter fun r => r.PRODUCT_CODE == code)).map
            Prod.snd).sum
          = ((df.filter fun r => r.PRODUCT_CODE == code).map fun r =>
               r.QUANTITY.getD 0).sum) := by
  intro hclaim
  exact absurd
    (hclaim [⟨1, "a", some 22800, some 1900, some 2⟩,
             ⟨1, "b", none, none, some 5⟩] 1)
    (by decide)
